import Mathlib

/-!
Verification development for the session-state dataset pipeline of `src/app.py`
(repository `Itachi4500/In-Process`).

The embedding models the one piece of state-machine logic in the script: the
dataset slots of `st.session_state` (`uploaded_df`, `cleaned_df`, `df`), the
resolution block (lines 92-105), the menu dispatch (lines 122-248), the upload
branch with its `try`/`except` handler and the cleaning block that lives inside
that handler (lines 122-183), the in-place cleaning operations (lines 148-163),
and the transformation-memory log.

Conventions of the embedding:
- Numeric cells are rationals; a pandas `NaN` is the `Cell.missing` variant.
  Non-numeric (object-dtype) columns play no role in any claim and are not
  modelled, so `select_dtypes` over numeric dtypes yields the whole header.
- Python object identity matters to the code (line 149 mutates a dataframe in
  place while lines 137 and 166 store references to it), so dataframes live in
  a heap (`SessionStore.heap`) and the session-state slots hold references,
  meaning heap indices. Writing to an index beyond the heap length is a no-op
  of the model; such dangling references are never produced by the modelled
  code.
- A session-state slot that was never assigned and a slot assigned the Python
  value `None` are both modelled as `none`: every read the script performs on
  these slots is either a presence test or an `is not None` test, and the two
  cases flow identically through all modelled branches.
- `st.warning` / `st.error` / `st.success` / `st.info` calls, pandas parser
  invocations and calls into the stage modules are recorded as an effect list;
  pure page glue (CSS, sidebar branding, titles) carries no state and is not
  recorded.
-/

namespace App

/-- A tabular cell: a missing value (pandas `NaN`) or a numeric value, modelled
as a rational. -/
inductive Cell
  | missing
  | val (q : ℚ)
deriving DecidableEq

/-- An in-memory tabular dataset (a `pandas.DataFrame`): named columns and rows
of cells. -/
structure DataFrame where
  header : List String
  rows : List (List Cell)
deriving DecidableEq

/-- The transformation-memory log: string keys mapped to lists of operation
descriptions. -/
abbrev Memory := List (String × List String)

/-- Modelled from the spec: `utils.memory.remember`, imported at line 11 of
`src/app.py`; the module `utils/memory.py` is not under `src/`. Spec section 4.2:
`remember(key, value)` associates `value` with `key`, replacing any prior
association for that exact key. -/
def remember (k : String) (v : List String) (m : Memory) : Memory :=
  (k, v) :: m.filter fun p => p.1 != k

/-- Modelled from the spec: `utils.memory.recall`, imported at line 11 of
`src/app.py`. Spec section 4.2: returns the stored value for `key`, or absent if
never written. Named `recallValue` because `recall` is a reserved word in this
environment. -/
def recallValue (k : String) (m : Memory) : Option (List String) :=
  (m.find? fun p => p.1 == k).map Prod.snd

/-- Modelled from the spec: `utils.memory.clear_all_memory`, imported at line 11
of `src/app.py`. Spec section 4.2: removes every key, resetting the log to
empty. -/
def clear_all_memory : Memory := []

/-- Python `str.endswith(suffix)` as used at lines 128 and 130, implemented
over the character lists. -/
def pyEndsWith (s suffx : String) : Bool := suffx.data.isSuffixOf s.data

/-- A row is complete when none of its cells is missing. -/
def rowComplete (r : List Cell) : Bool := r.all fun c => c != Cell.missing

/-- Pandas `df.dropna()` as invoked at line 149 of `src/app.py` (default
arguments): drop every row that contains a missing value. -/
def DataFrame.dropna (d : DataFrame) : DataFrame :=
  { d with rows := d.rows.filter rowComplete }

/-- The numeric values present in a series, skipping missing cells, in order. -/
def seriesVals (xs : List Cell) : List ℚ :=
  xs.filterMap fun c => match c with | .missing => none | .val q => some q

/-- Pandas `Series.min()` as at line 159: the minimum over the present values
(missing cells are skipped). A series with no present value has no minimum in
pandas (`NaN`); the model returns `0` there, a case outside every claim. -/
def seriesMin (xs : List Cell) : ℚ :=
  match seriesVals xs with
  | [] => 0
  | v :: vs => vs.foldl min v

/-- Pandas `Series.max()` as at line 160, dual to `seriesMin`. -/
def seriesMax (xs : List Cell) : ℚ :=
  match seriesVals xs with
  | [] => 0
  | v :: vs => vs.foldl max v

/-- Apply a numeric function to every present cell of a series; missing cells
stay missing (pandas `NaN` propagation through arithmetic). -/
def mapVals (g : ℚ → ℚ) (xs : List Cell) : List Cell :=
  xs.map fun c => match c with | .missing => .missing | .val q => .val (g q)

/-- Lines 158-161 of `src/app.py` for one column:
`df[col] = (df[col] - min_val) / (max_val - min_val)`, with `min_val` and
`max_val` computed from the current values of that very series. -/
def normalizeSeries (xs : List Cell) : List Cell :=
  mapVals (fun q => (q - seriesMin xs) / (seriesMax xs - seriesMin xs)) xs

/-- Column read `df[col]`: the cells of the named column, or an empty series
when the name is absent from the header. -/
def DataFrame.col (d : DataFrame) (c : String) : List Cell :=
  match d.header.indexOf? c with
  | some j => d.rows.map fun r => r.getD j Cell.missing
  | none => []

/-- Column write `df[col] = vs` for an existing column. -/
def DataFrame.setCol (d : DataFrame) (c : String) (vs : List Cell) : DataFrame :=
  match d.header.indexOf? c with
  | some j => { d with rows := (d.rows.zip vs).map fun p => p.1.set j p.2 }
  | none => d

/-- One iteration of the loop at lines 158-161: min-max normalize one named
column of a dataframe against its own current values. -/
def DataFrame.normalizeCol (d : DataFrame) (c : String) : DataFrame :=
  d.setCol c (normalizeSeries (d.col c))

/-- Lines 158-161: `for col in cols_to_scale:` applied sequentially, each
column normalized against its values current at that point of the loop. -/
def DataFrame.normalizeCols (d : DataFrame) (cs : List String) : DataFrame :=
  cs.foldl DataFrame.normalizeCol d

/-- The session state together with the heap of dataframe objects. The three
slots are `st.session_state.uploaded_df`, `st.session_state.cleaned_df` and
`st.session_state.df`; they hold references, modelled as heap indices. -/
structure SessionStore where
  heap : List DataFrame
  uploaded_df : Option Nat
  cleaned_df : Option Nat
  df : Option Nat
  memory : Memory
deriving DecidableEq

/-- Read the dataframe object a reference points at. -/
def heapGet (s : SessionStore) (r : Nat) : Option DataFrame := s.heap[r]?

/-- Line 149: `df.dropna(inplace=True)` replaces, in place, the heap object the
reference points at; no session-state slot is written. -/
def dropnaInPlace (s : SessionStore) (r : Nat) : SessionStore :=
  match s.heap[r]? with
  | some d => { s with heap := s.heap.set r d.dropna }
  | none => s

/-- Lines 157-163: the loop body of the Normalize Selected Columns button
writes `df[col]`, an in-place update of the referenced heap object; no
session-state slot is written. -/
def normalizeInPlace (s : SessionStore) (r : Nat) (cs : List String) : SessionStore :=
  match s.heap[r]? with
  | some d => { s with heap := s.heap.set r (d.normalizeCols cs) }
  | none => s

/-- The dataset contents currently readable through the `uploaded_df` slot. -/
def uploadedContents (s : SessionStore) : Option DataFrame :=
  s.uploaded_df.bind fun r => s.heap[r]?

/-- Modelled from the spec: `utils.refresh.refresh_data`, imported at line 10 of
`src/app.py` and called at line 97; `utils/refresh.py` is not under `src/`. The
spec (sections 1 and 3) treats everything outside the session slots as external
presentation glue and states the resolution invariant over lines 92-105
unconditionally, leaving no room for this call to alter the dataset slots, so
it is modelled as the identity on the session store. -/
def refresh_data (s : SessionStore) : SessionStore := s

/-- Lines 92-105 of `src/app.py`, the resolution block run at the top of every
rerun:
line 92-93: if `uploaded_df` is present, `df` is set to it;
line 94-95: if `cleaned_df` is present, `df` is set to it;
line 97: `refresh_data()`;
line 102-103: if `df` is absent it is set to `None` (already `none` here);
line 104-105: if `cleaned_df` is present, `df` is set to it again. -/
def resolveDf (s : SessionStore) : SessionStore :=
  let s1 := match s.uploaded_df with
    | some r => { s with df := some r }
    | none => s
  let s2 := match s1.cleaned_df with
    | some r => { s1 with df := some r }
    | none => s1
  let s3 := refresh_data s2
  match s3.cleaned_df with
  | some r => { s3 with df := some r }
  | none => s3

/-- Observable events of one rerun: user-visible messages, pandas parser
invocations, and calls into the external stage modules. -/
inductive Eff
  | warning (msg : String)
  | error (msg : String)
  | success (msg : String)
  | info (msg : String)
  | parseFile (reader : String) (name : String)
  | callStage (fn : String) (r : Nat)
  | display (what : String)
deriving DecidableEq

/-- Python runtime errors the modelled code can raise. -/
inductive PyError
  | nameError (n : String)
  | attributeError (n : String)
deriving DecidableEq

/-- Binding state of the Python local `df` inside the upload branch: unbound
because line 123 raised before assigning, bound to the Python value `None`
(line 134), or bound to a dataframe object. -/
inductive Binding
  | unbound
  | pynone
  | ref (r : Nat)
deriving DecidableEq

/-- The sidebar menu entries (lines 75-88), identified by their keys. The
`cleaning` entry is the key `🧹 Data Cleaning`; the dispatch at lines 122-248
compares `choice` against every other key but never against this one. -/
inductive Choice
  | upload
  | cleaning
  | eda
  | viz
  | modeling
  | evalTuning
  | exportData
  | report
  | powerbi
  | dashboard
deriving DecidableEq

/-- A user-supplied file as seen through `st.file_uploader` (line 121): its
name, and the outcome pandas parsing would produce on it. The parsers
themselves are external collaborators (spec section 1). -/
structure UploadedFile where
  name : String
  parsed : Except String DataFrame

/-- The widget inputs of one rerun: the uploaded file, the three button states
(lines 148, 157, 181) and the multiselect selection (line 155). -/
structure Inputs where
  file : Option UploadedFile
  dropPressed : Bool
  normSelection : List String
  normPressed : Bool
  clearPressed : Bool

/-- Module-level names bound in `src/app.py` before line 123 is reached: the
imports of lines 1-12 and the assignments at lines 17, 19, 28, 75, 88 and 121.
`upload_data` is not among them and is bound nowhere else. -/
def appModuleNames : List String :=
  ["st", "pd", "clean_data", "run_eda", "show_visuals", "run_modeling",
   "export_data", "powerbi_pipeline", "live_dashboard", "refresh_data",
   "remember", "recall", "show_memory", "clear_all_memory",
   "select_dashboard_size", "theme", "light_css", "dark_css", "menu", "choice",
   "uploaded_file"]

/-- Lines 141-183: the `except` handler of the upload branch. It surfaces the
parse error (line 142) and then, because of the indentation of the block, falls
through into the cleaning code (lines 145-183), which operates on the local
`df` binding with no dataset-presence guard:
line 145: `cleaning_steps = []`;
lines 148-151: Drop Missing Values button, `df.dropna(inplace=True)`;
line 154: `numeric_cols = df.select_dtypes(...)` — an unconditional read of
`df`, the full header here since every modelled cell is numeric;
line 155: multiselect restricted to `numeric_cols`;
lines 157-163: Normalize Selected Columns button, in-place loop;
line 166: `st.session_state.cleaned_df = df`;
lines 169-170: `remember("cleaning_steps", cleaning_steps)` when non-empty;
lines 172-179: display of the memory log;
lines 181-183: Clear Memory button. -/
def exceptHandler (dfB : Binding) (msg : String) (inp : Inputs) (s : SessionStore) :
    SessionStore × List Eff × Option PyError :=
  let e0 : List Eff := [Eff.error ("❌ Error reading file: " ++ msg)]
  match dfB with
  | .unbound =>
      (s, e0, some (.nameError "df"))
  | .pynone =>
      (s, e0, some (.attributeError (if inp.dropPressed then "dropna" else "select_dtypes")))
  | .ref r =>
      let s1 := if inp.dropPressed then dropnaInPlace s r else s
      let steps1 : List String := if inp.dropPressed then ["Dropped missing values"] else []
      let e1 := if inp.dropPressed then e0 ++ [Eff.success "Missing values removed!"] else e0
      let numericCols := ((s1.heap[r]?).getD { header := [], rows := [] }).header
      let colsToScale := inp.normSelection.filter fun c => numericCols.contains c
      let s2 := if inp.normPressed then normalizeInPlace s1 r colsToScale else s1
      let steps2 := if inp.normPressed then
          steps1 ++ ["Normalized columns: " ++ String.intercalate ", " colsToScale]
        else steps1
      let e2 := if inp.normPressed then e1 ++ [Eff.success "Selected columns normalized!"] else e1
      let s3 := { s2 with cleaned_df := some r }
      let s4 := if steps2.isEmpty then s3
        else { s3 with memory := remember "cleaning_steps" steps2 s3.memory }
      let e3 := e2 ++ [Eff.display "cleaning memory"]
      let s5 := if inp.clearPressed then { s4 with memory := clear_all_memory } else s4
      let e4 := if inp.clearPressed then e3 ++ [Eff.success "Memory cleared."] else e3
      (s5, e4, none)

/-- Lines 125-183: the body of the Upload Dataset branch after line 123. `dfB`
is the binding of the local `df` on entry; in `src/app.py` it is always
`Binding.unbound` because line 123 raises before assigning. Control flow:
line 125: nothing happens without a file;
lines 128-131: extension dispatch to `pd.read_csv` / `pd.read_excel`;
lines 132-134: any other extension warns and sets `df = None`, after which the
guard at line 136 fails and the `try` block ends with no commit;
lines 136-139: a parsed dataframe is stored in `uploaded_df` (the very object
`df` references) with a success message;
lines 141-183: a parser exception enters the `except` handler. -/
def uploadBody (dfB : Binding) (inp : Inputs) (s : SessionStore) :
    SessionStore × List Eff × Option PyError :=
  match inp.file with
  | none => (s, [], none)
  | some f =>
    if pyEndsWith f.name ".csv" then
      match f.parsed with
      | .ok d =>
          let r := s.heap.length
          ({ s with heap := s.heap ++ [d], uploaded_df := some r },
           [Eff.parseFile "read_csv" f.name,
            Eff.success "✅ File uploaded and saved successfully!",
            Eff.display "df.head"], none)
      | .error msg =>
          let res := exceptHandler dfB msg inp s
          (res.1, Eff.parseFile "read_csv" f.name :: res.2.1, res.2.2)
    else if pyEndsWith f.name ".xlsx" then
      match f.parsed with
      | .ok d =>
          let r := s.heap.length
          ({ s with heap := s.heap ++ [d], uploaded_df := some r },
           [Eff.parseFile "read_excel" f.name,
            Eff.success "✅ File uploaded and saved successfully!",
            Eff.display "df.head"], none)
      | .error msg =>
          let res := exceptHandler dfB msg inp s
          (res.1, Eff.parseFile "read_excel" f.name :: res.2.1, res.2.2)
    else
      (s, [Eff.warning "⚠️ Please upload a CSV or Excel file."], none)

/-- Lines 122-183: the full Upload Dataset branch. Line 123, `df =
upload_data()`, first resolves the name `upload_data` in the module
environment; an unbound name raises `NameError` before anything else in the
branch runs. When the name resolves (never the case in `src/app.py`), `dfB` is
the binding its call would produce for `df`. -/
def uploadBranch (env : List String) (dfB : Binding) (inp : Inputs) (s : SessionStore) :
    SessionStore × List Eff × Option PyError :=
  if "upload_data" ∈ env then uploadBody dfB inp s
  else (s, [], some (.nameError "upload_data"))

/-- Lines 186-190: the Exploratory Data Analysis branch. -/
def edaBranch (s : SessionStore) : SessionStore × List Eff × Option PyError :=
  match s.df with
  | some r => (s, [Eff.callStage "run_eda" r], none)
  | none => (s, [Eff.warning "⚠️ Please upload a dataset first."], none)

/-- Lines 192-196: the Visualization branch. -/
def vizBranch (s : SessionStore) : SessionStore × List Eff × Option PyError :=
  match s.df with
  | some r => (s, [Eff.callStage "show_visuals" r], none)
  | none => (s, [Eff.warning "⚠️ Please upload a dataset first."], none)

/-- Lines 198-202: the Feature Engineering and Modeling branch. -/
def modelingBranch (s : SessionStore) : SessionStore × List Eff × Option PyError :=
  match s.df with
  | some r => (s, [Eff.callStage "run_modeling" r], none)
  | none => (s, [Eff.warning "⚠️ Please upload a dataset first."], none)

/-- Lines 204-205: the Evaluation and Tuning branch, an info message only. -/
def evalTuningBranch (s : SessionStore) : SessionStore × List Eff × Option PyError :=
  (s, [Eff.info "📌 Model evaluation & tuning is handled during modeling. See results after training."], none)

/-- Lines 207-211: the Export Dataset branch. -/
def exportBranch (s : SessionStore) : SessionStore × List Eff × Option PyError :=
  match s.df with
  | some r => (s, [Eff.callStage "export_data" r], none)
  | none => (s, [Eff.warning "⚠️ Please upload a dataset first."], none)

/-- Lines 213-218: the Power BI Pipeline branch. It tests and reads
`st.session_state.cleaned_df`, never falling back to `uploaded_df`. -/
def powerbiBranch (s : SessionStore) : SessionStore × List Eff × Option PyError :=
  match s.cleaned_df with
  | some r => (s, [Eff.callStage "powerbi_pipeline" r], none)
  | none => (s, [Eff.warning "⚠️ Please upload and clean your dataset first."], none)

/-- Lines 221-226: the Live Dashboard branch. It tests and reads
`st.session_state.cleaned_df`, never falling back to `uploaded_df`. -/
def dashboardBranch (s : SessionStore) : SessionStore × List Eff × Option PyError :=
  match s.cleaned_df with
  | some r => (s, [Eff.callStage "live_dashboard" r], none)
  | none => (s, [Eff.warning "Please upload and clean your dataset first."], none)

/-- Lines 231-248: the Generate Report branch, read-only derived views of
`st.session_state.df`. -/
def reportBranch (s : SessionStore) : SessionStore × List Eff × Option PyError :=
  match s.df with
  | some _ =>
      (s, [Eff.display "report quick stats", Eff.display "report feature summary",
           Eff.display "report missing values",
           Eff.success "✅ Report Ready — You can export or take screenshots."], none)
  | none => (s, [Eff.warning "⚠️ Upload and clean a dataset before generating the report."], none)

/-- Lines 122-248: the dispatch on the menu choice. Every `elif` compares
`choice` against a menu key; no comparison mentions `🧹 Data Cleaning`, so that
choice falls through the whole chain and nothing at all runs for it. -/
def runChoice (env : List String) (dfB : Binding) (inp : Inputs) (c : Choice)
    (s : SessionStore) : SessionStore × List Eff × Option PyError :=
  match c with
  | .upload => uploadBranch env dfB inp s
  | .cleaning => (s, [], none)
  | .eda => edaBranch s
  | .viz => vizBranch s
  | .modeling => modelingBranch s
  | .evalTuning => evalTuningBranch s
  | .exportData => exportBranch s
  | .report => reportBranch s
  | .powerbi => powerbiBranch s
  | .dashboard => dashboardBranch s

/-- One full script rerun: the resolution block (lines 92-105) followed by the
dispatch (lines 122-248). -/
def scriptRerun (env : List String) (dfB : Binding) (inp : Inputs) (c : Choice)
    (s : SessionStore) : SessionStore × List Eff × Option PyError :=
  runChoice env dfB inp c (resolveDf s)

/-- The dataset reference a downstream branch tests and passes on:
`st.session_state.df` for EDA (line 187), visualization (line 193), modeling
(line 199), export (line 208) and report (line 232); `st.session_state.cleaned_df`
for Power BI (line 214) and the live dashboard (line 222). The upload branch,
the missing cleaning branch and the evaluation info screen read no dataset. -/
def downstreamExposed (c : Choice) (s : SessionStore) : Option Nat :=
  match c with
  | .eda => s.df
  | .viz => s.df
  | .modeling => s.df
  | .exportData => s.df
  | .report => s.df
  | .powerbi => s.cleaned_df
  | .dashboard => s.cleaned_df
  | _ => none

/-- The five stages that read `st.session_state.df` behind an `is not None`
guard. -/
def dfStages : List Choice :=
  [Choice.eda, Choice.viz, Choice.modeling, Choice.exportData, Choice.report]

/-- All seven downstream stages named by the spec. -/
def downstreamStages : List Choice := dfStages ++ [Choice.powerbi, Choice.dashboard]

/-- Concrete dataframe with one complete and one incomplete row. -/
def dfA : DataFrame := { header := ["x"], rows := [[Cell.val 1], [Cell.missing]] }

/-- Session with an uploaded dataset and no cleaned dataset, before resolution. -/
def sUploadedOnly : SessionStore :=
  { heap := [dfA], uploaded_df := some 0, cleaned_df := none, df := none, memory := [] }

/-- Session right after a successful upload of `dfA` and resolution: line 137
stored in `uploaded_df` the very object the working reference points at, so
both `uploaded_df` and `df` hold reference `0`. -/
def sAliased : SessionStore :=
  { heap := [dfA], uploaded_df := some 0, cleaned_df := none, df := some 0, memory := [] }

/-- The empty session at the start of a run. -/
def sEmpty : SessionStore :=
  { heap := [], uploaded_df := none, cleaned_df := none, df := none, memory := [] }

/-- Widget inputs with no file and no button pressed. -/
def inpQuiet : Inputs :=
  { file := none, dropPressed := false, normSelection := [], normPressed := false,
    clearPressed := false }

/-- A file whose extension is neither `.csv` nor `.xlsx`. -/
def fTxt : UploadedFile := { name := "data.txt", parsed := Except.error "not parsed" }

/-- A `.csv` file whose parse fails. -/
def fCsvBad : UploadedFile := { name := "data.csv", parsed := Except.error "bad file" }

/-- Widget inputs carrying the unsupported file. -/
def inpTxt : Inputs :=
  { file := some fTxt, dropPressed := false, normSelection := [], normPressed := false,
    clearPressed := false }

/-- Widget inputs carrying the failing csv file. -/
def inpCsvBad : Inputs :=
  { file := some fCsvBad, dropPressed := false, normSelection := [], normPressed := false,
    clearPressed := false }

theorem seriesVals_nil : seriesVals [] = [] := rfl

theorem seriesVals_cons_missing (t : List Cell) :
    seriesVals (Cell.missing :: t) = seriesVals t := rfl

theorem seriesVals_cons_val (q : ℚ) (t : List Cell) :
    seriesVals (Cell.val q :: t) = q :: seriesVals t := rfl

theorem mapVals_nil (g : ℚ → ℚ) : mapVals g [] = [] := rfl

theorem mapVals_cons_missing (g : ℚ → ℚ) (t : List Cell) :
    mapVals g (Cell.missing :: t) = Cell.missing :: mapVals g t := rfl

theorem mapVals_cons_val (g : ℚ → ℚ) (q : ℚ) (t : List Cell) :
    mapVals g (Cell.val q :: t) = Cell.val (g q) :: mapVals g t := rfl

theorem foldl_min_le_init (l : List ℚ) : ∀ a : ℚ, l.foldl min a ≤ a := by
  induction l with
  | nil => intro a; exact le_refl a
  | cons b t ih => intro a; exact le_trans (ih (min a b)) (min_le_left a b)

theorem foldl_min_le_mem (l : List ℚ) : ∀ a x : ℚ, x ∈ l → l.foldl min a ≤ x := by
  induction l with
  | nil => intro a x hx; cases hx
  | cons b t ih =>
      intro a x hx
      rw [List.foldl_cons]
      rcases List.mem_cons.mp hx with rfl | hx
      · exact le_trans (foldl_min_le_init t (min a x)) (min_le_right a x)
      · exact ih (min a b) x hx

theorem foldl_min_mem (l : List ℚ) : ∀ a : ℚ, l.foldl min a ∈ a :: l := by
  induction l with
  | nil => intro a; exact List.mem_cons_self a []
  | cons b t ih =>
      intro a
      rw [List.foldl_cons]
      rcases List.mem_cons.mp (ih (min a b)) with h1 | h1
      · rcases min_choice a b with h2 | h2
        · rw [h1, h2]; exact List.mem_cons_self a (b :: t)
        · rw [h1, h2]; exact List.mem_cons_of_mem a (List.mem_cons_self b t)
      · exact List.mem_cons_of_mem a (List.mem_cons_of_mem b h1)

theorem foldl_max_ge_init (l : List ℚ) : ∀ a : ℚ, a ≤ l.foldl max a := by
  induction l with
  | nil => intro a; exact le_refl a
  | cons b t ih => intro a; exact le_trans (le_max_left a b) (ih (max a b))

theorem foldl_max_ge_mem (l : List ℚ) : ∀ a x : ℚ, x ∈ l → x ≤ l.foldl max a := by
  induction l with
  | nil => intro a x hx; cases hx
  | cons b t ih =>
      intro a x hx
      rw [List.foldl_cons]
      rcases List.mem_cons.mp hx with rfl | hx
      · exact le_trans (le_max_right a x) (foldl_max_ge_init t (max a x))
      · exact ih (max a b) x hx

theorem foldl_max_mem (l : List ℚ) : ∀ a : ℚ, l.foldl max a ∈ a :: l := by
  induction l with
  | nil => intro a; exact List.mem_cons_self a []
  | cons b t ih =>
      intro a
      rw [List.foldl_cons]
      rcases List.mem_cons.mp (ih (max a b)) with h1 | h1
      · rcases max_choice a b with h2 | h2
        · rw [h1, h2]; exact List.mem_cons_self a (b :: t)
        · rw [h1, h2]; exact List.mem_cons_of_mem a (List.mem_cons_self b t)
      · exact List.mem_cons_of_mem a (List.mem_cons_of_mem b h1)

theorem foldl_min_map (g : ℚ → ℚ) (hg : ∀ x y : ℚ, x ≤ y → g x ≤ g y) (l : List ℚ) :
    ∀ a : ℚ, (l.map g).foldl min (g a) = g (l.foldl min a) := by
  induction l with
  | nil => intro a; rfl
  | cons b t ih =>
      intro a
      rw [List.map_cons, List.foldl_cons, List.foldl_cons]
      have hmin : min (g a) (g b) = g (min a b) := by
        rcases le_total a b with h | h
        · rw [min_eq_left h, min_eq_left (hg a b h)]
        · rw [min_eq_right h, min_eq_right (hg b a h)]
      rw [hmin]
      exact ih (min a b)

theorem foldl_max_map (g : ℚ → ℚ) (hg : ∀ x y : ℚ, x ≤ y → g x ≤ g y) (l : List ℚ) :
    ∀ a : ℚ, (l.map g).foldl max (g a) = g (l.foldl max a) := by
  induction l with
  | nil => intro a; rfl
  | cons b t ih =>
      intro a
      rw [List.map_cons, List.foldl_cons, List.foldl_cons]
      have hmax : max (g a) (g b) = g (max a b) := by
        rcases le_total a b with h | h
        · rw [max_eq_right h, max_eq_right (hg a b h)]
        · rw [max_eq_left h, max_eq_left (hg b a h)]
      rw [hmax]
      exact ih (max a b)

theorem seriesVals_mapVals (g : ℚ → ℚ) (xs : List Cell) :
    seriesVals (mapVals g xs) = (seriesVals xs).map g := by
  induction xs with
  | nil => rfl
  | cons c t ih =>
      cases c with
      | missing => rw [mapVals_cons_missing, seriesVals_cons_missing,
          seriesVals_cons_missing, ih]
      | val q => rw [mapVals_cons_val, seriesVals_cons_val, seriesVals_cons_val,
          List.map_cons, ih]

theorem mapVals_id (g : ℚ → ℚ) (hg : ∀ q : ℚ, g q = q) (xs : List Cell) :
    mapVals g xs = xs := by
  induction xs with
  | nil => rfl
  | cons c t ih =>
      cases c with
      | missing => rw [mapVals_cons_missing, ih]
      | val q => rw [mapVals_cons_val, hg, ih]

theorem seriesMin_le (xs : List Cell) (x : ℚ) (hx : x ∈ seriesVals xs) :
    seriesMin xs ≤ x := by
  cases h : seriesVals xs with
  | nil => rw [h] at hx; cases hx
  | cons v vs =>
      rw [h] at hx
      have hrw : seriesMin xs = vs.foldl min v := by simp only [seriesMin, h]
      rw [hrw]
      rcases List.mem_cons.mp hx with rfl | hx
      · exact foldl_min_le_init vs x
      · exact foldl_min_le_mem vs v x hx

theorem seriesMax_ge (xs : List Cell) (x : ℚ) (hx : x ∈ seriesVals xs) :
    x ≤ seriesMax xs := by
  cases h : seriesVals xs with
  | nil => rw [h] at hx; cases hx
  | cons v vs =>
      rw [h] at hx
      have hrw : seriesMax xs = vs.foldl max v := by simp only [seriesMax, h]
      rw [hrw]
      rcases List.mem_cons.mp hx with rfl | hx
      · exact foldl_max_ge_init vs x
      · exact foldl_max_ge_mem vs v x hx

theorem seriesMin_mapVals (g : ℚ → ℚ) (hg : ∀ x y : ℚ, x ≤ y → g x ≤ g y)
    (xs : List Cell) (v : ℚ) (vs : List ℚ) (h : seriesVals xs = v :: vs) :
    seriesMin (mapVals g xs) = g (seriesMin xs) := by
  simp only [seriesMin, seriesVals_mapVals, h, List.map_cons]
  exact foldl_min_map g hg vs v

theorem seriesMax_mapVals (g : ℚ → ℚ) (hg : ∀ x y : ℚ, x ≤ y → g x ≤ g y)
    (xs : List Cell) (v : ℚ) (vs : List ℚ) (h : seriesVals xs = v :: vs) :
    seriesMax (mapVals g xs) = g (seriesMax xs) := by
  simp only [seriesMax, seriesVals_mapVals, h, List.map_cons]
  exact foldl_max_map g hg vs v

/-- The net effect of the resolution block: `df` becomes `cleaned_df` when
present, else `uploaded_df` when present, else keeps its prior value; nothing
else changes. -/
theorem resolveDf_eq (s : SessionStore) :
    resolveDf s = { s with df := Option.or s.cleaned_df (Option.or s.uploaded_df s.df) } := by
  rcases s with ⟨h, u, c, d, m⟩
  cases u <;> cases c <;> rfl

theorem downstreamExposed_df (c : Choice) (hc : c ∈ dfStages) (s : SessionStore) :
    downstreamExposed c s = s.df := by
  have hcases : c = Choice.eda ∨ c = Choice.viz ∨ c = Choice.modeling ∨
      c = Choice.exportData ∨ c = Choice.report := by
    simpa [dfStages] using hc
  rcases hcases with rfl | rfl | rfl | rfl | rfl <;> rfl

/-- C1: counterexample. In the session `sUploadedOnly` an uploaded dataset is
set and no cleaned dataset exists, so the claimed resolution (`cleaned` if set,
otherwise `uploaded`) yields the uploaded reference `0`; but the Power BI
branch exposes only `cleaned_df` and sees no dataset at all. -/
theorem C1_counterexample :
    downstreamExposed Choice.powerbi (resolveDf sUploadedOnly) = none ∧
    Option.or sUploadedOnly.cleaned_df sUploadedOnly.uploaded_df = some 0 :=
  ⟨rfl, rfl⟩

/-- C1 (amended): for the EDA, visualization, modeling, export and report
stages the exposed dataset is `cleaned` if set, otherwise `uploaded`, otherwise
absent (the hypothesis states that the `df` slot is absent whenever both named
slots are, which holds in every reachable session since only the resolution
block writes `df`); the Power BI and Live Dashboard stages instead expose the
`cleaned` dataset only. -/
theorem C1_resolution (s : SessionStore)
    (hreach : s.uploaded_df = none → s.cleaned_df = none → s.df = none) :
    (∀ c ∈ dfStages,
        downstreamExposed c (resolveDf s) = Option.or s.cleaned_df s.uploaded_df) ∧
    downstreamExposed Choice.powerbi (resolveDf s) = s.cleaned_df ∧
    downstreamExposed Choice.dashboard (resolveDf s) = s.cleaned_df := by
  have hdf : (resolveDf s).df = Option.or s.cleaned_df (Option.or s.uploaded_df s.df) := by
    rw [resolveDf_eq]
  have hcl : (resolveDf s).cleaned_df = s.cleaned_df := by rw [resolveDf_eq]
  refine ⟨fun c hc => ?_, ?_, ?_⟩
  · rw [downstreamExposed_df c hc, hdf]
    cases hu : s.uploaded_df with
    | some a => cases s.cleaned_df <;> rfl
    | none =>
        cases hc2 : s.cleaned_df with
        | some b => rfl
        | none => rw [hreach hu hc2]; rfl
  · exact hcl
  · exact hcl

/-- C1 witness: at `sUploadedOnly` the EDA stage is exposed to the uploaded
dataset while Power BI is exposed to the (absent) cleaned dataset. -/
theorem C1_resolution_witness :
    downstreamExposed Choice.eda (resolveDf sUploadedOnly)
        = Option.or sUploadedOnly.cleaned_df sUploadedOnly.uploaded_df ∧
    downstreamExposed Choice.powerbi (resolveDf sUploadedOnly)
        = sUploadedOnly.cleaned_df :=
  ⟨(C1_resolution sUploadedOnly (fun h => absurd h (by decide))).1 Choice.eda (by decide),
   (C1_resolution sUploadedOnly (fun h => absurd h (by decide))).2.1⟩

/-- C2: the code has no Data Cleaning stage at all. The menu lists
`🧹 Data Cleaning`, but the dispatch never compares `choice` against it, so
selecting it runs nothing: no read of the current dataset, no warning when it
is absent, no `cleaned_df` commit and no `remember` call — the session state
after the rerun is exactly the resolved state and the effect list is empty.
The cleaning code instead sits inside the `except` handler of the upload
branch (lines 145-183) with no dataset-presence guard. -/
theorem C2_cleaning_choice_noop (env : List String) (dfB : Binding) (inp : Inputs)
    (s : SessionStore) :
    scriptRerun env dfB inp Choice.cleaning s = (resolveDf s, [], none) ∧
    (resolveDf s).uploaded_df = s.uploaded_df ∧
    (resolveDf s).cleaned_df = s.cleaned_df ∧
    (resolveDf s).memory = s.memory := by
  refine ⟨rfl, ?_, ?_, ?_⟩ <;> rw [resolveDf_eq]

/-- C3: counterexample. In `sAliased` the uploaded slot references object `0`,
the same object the cleaning block works on (line 137 stored that very
object). The drop-missing operation (line 149, `df.dropna(inplace=True)`)
mutates it in place, so the dataset read through the uploaded slot changes. -/
theorem C3_counterexample :
    uploadedContents (dropnaInPlace sAliased 0) ≠ uploadedContents sAliased := by
  decide

/-- C3 (amended): the cleaning operations never reassign the `uploaded_df`
slot — its reference survives both drop-missing-values and
normalize-selected-columns — but they mutate the referenced dataframe object
in place, and since the upload branch stores in `uploaded_df` the very object
the cleaning code operates on, the dataset contents seen through `uploaded_df`
change with it. -/
theorem C3_slot_never_reassigned (s : SessionStore) (r : Nat) (cs : List String) :
    (dropnaInPlace s r).uploaded_df = s.uploaded_df ∧
    (normalizeInPlace s r cs).uploaded_df = s.uploaded_df := by
  constructor
  · unfold dropnaInPlace
    cases s.heap[r]? <;> rfl
  · unfold normalizeInPlace
    cases s.heap[r]? <;> rfl

/-- C4: `upload_data` is not among the module-level names of `src/app.py`, and
every entry into the Upload Dataset branch therefore raises `NameError` at
line 123 — before any parser invocation, any message and any session-state
write: the state comes back unchanged and the effect list is empty. -/
theorem C4_upload_name_error :
    "upload_data" ∉ appModuleNames ∧
    ∀ (dfB : Binding) (inp : Inputs) (s : SessionStore),
      uploadBranch appModuleNames dfB inp s
        = (s, [], some (PyError.nameError "upload_data")) := by
  constructor
  · decide
  · intro dfB inp s
    simp only [uploadBranch]
    rw [if_neg (by decide : ¬ ("upload_data" ∈ appModuleNames))]

/-- C5: each of the EDA, visualization, modeling, export and report stages,
entered when the current dataset is absent, emits exactly one warning, calls
no stage function, and leaves the uploaded dataset, the cleaned dataset, the
memory log and the heap unchanged. -/
theorem C5_missing_dataset_guard (env : List String) (dfB : Binding) (inp : Inputs)
    (c : Choice) (hc : c ∈ dfStages) (s : SessionStore)
    (habs : (resolveDf s).df = none) :
    ∃ m, scriptRerun env dfB inp c s = (resolveDf s, [Eff.warning m], none) ∧
      (resolveDf s).uploaded_df = s.uploaded_df ∧
      (resolveDf s).cleaned_df = s.cleaned_df ∧
      (resolveDf s).memory = s.memory ∧
      (resolveDf s).heap = s.heap := by
  have h1 : (resolveDf s).uploaded_df = s.uploaded_df := by rw [resolveDf_eq]
  have h2 : (resolveDf s).cleaned_df = s.cleaned_df := by rw [resolveDf_eq]
  have h3 : (resolveDf s).memory = s.memory := by rw [resolveDf_eq]
  have h4 : (resolveDf s).heap = s.heap := by rw [resolveDf_eq]
  have hcases : c = Choice.eda ∨ c = Choice.viz ∨ c = Choice.modeling ∨
      c = Choice.exportData ∨ c = Choice.report := by
    simpa [dfStages] using hc
  rcases hcases with rfl | rfl | rfl | rfl | rfl
  · exact ⟨"⚠️ Please upload a dataset first.",
      by simp only [scriptRerun, runChoice, edaBranch, habs], h1, h2, h3, h4⟩
  · exact ⟨"⚠️ Please upload a dataset first.",
      by simp only [scriptRerun, runChoice, vizBranch, habs], h1, h2, h3, h4⟩
  · exact ⟨"⚠️ Please upload a dataset first.",
      by simp only [scriptRerun, runChoice, modelingBranch, habs], h1, h2, h3, h4⟩
  · exact ⟨"⚠️ Please upload a dataset first.",
      by simp only [scriptRerun, runChoice, exportBranch, habs], h1, h2, h3, h4⟩
  · exact ⟨"⚠️ Upload and clean a dataset before generating the report.",
      by simp only [scriptRerun, runChoice, reportBranch, habs], h1, h2, h3, h4⟩

/-- C5 witness: selecting the EDA stage on the empty session warns and changes
nothing. -/
theorem C5_missing_dataset_guard_witness :
    ∃ m, scriptRerun [] Binding.unbound inpQuiet Choice.eda sEmpty
        = (resolveDf sEmpty, [Eff.warning m], none) ∧
      (resolveDf sEmpty).uploaded_df = sEmpty.uploaded_df ∧
      (resolveDf sEmpty).cleaned_df = sEmpty.cleaned_df ∧
      (resolveDf sEmpty).memory = sEmpty.memory ∧
      (resolveDf sEmpty).heap = sEmpty.heap :=
  C5_missing_dataset_guard [] Binding.unbound inpQuiet Choice.eda (by decide) sEmpty rfl

/-- C6: at the upload boundary (with the local `df` unbound, as in every run of
`src/app.py`): a file with an unrecognized extension produces exactly the
warning of line 133 and no dataset commit; a file whose parse raises is caught
by the `except` handler, which surfaces the error message of line 142 and
preserves the prior session state unchanged — the handler then falls into the
cleaning block whose first read of the unbound `df` raises `NameError`, still
before any commit. -/
theorem C6_upload_boundary :
    (∀ (inp : Inputs) (s : SessionStore) (f : UploadedFile),
        inp.file = some f → pyEndsWith f.name ".csv" = false →
        pyEndsWith f.name ".xlsx" = false →
        uploadBody Binding.unbound inp s
          = (s, [Eff.warning "⚠️ Please upload a CSV or Excel file."], none)) ∧
    (∀ (inp : Inputs) (s : SessionStore) (f : UploadedFile) (msg : String),
        inp.file = some f → f.parsed = Except.error msg →
        (pyEndsWith f.name ".csv" = true ∨
          (pyEndsWith f.name ".csv" = false ∧ pyEndsWith f.name ".xlsx" = true)) →
        ∃ reader, uploadBody Binding.unbound inp s
          = (s, [Eff.parseFile reader f.name,
                 Eff.error ("❌ Error reading file: " ++ msg)],
             some (PyError.nameError "df"))) := by
  constructor
  · intro inp s f hfile hcsv hxlsx
    simp [uploadBody, hfile, hcsv, hxlsx]
  · intro inp s f msg hfile hparse hext
    rcases hext with hcsv | ⟨hcsv, hxlsx⟩
    · exact ⟨"read_csv", by simp [uploadBody, hfile, hcsv, hparse, exceptHandler]⟩
    · exact ⟨"read_excel", by simp [uploadBody, hfile, hcsv, hxlsx, hparse, exceptHandler]⟩

/-- C6 witness: a `.txt` upload warns and commits nothing; a failing `.csv`
upload surfaces the parse error and preserves the prior state. -/
theorem C6_upload_boundary_witness :
    (uploadBody Binding.unbound inpTxt sUploadedOnly
        = (sUploadedOnly, [Eff.warning "⚠️ Please upload a CSV or Excel file."], none)) ∧
    (∃ reader, uploadBody Binding.unbound inpCsvBad sUploadedOnly
        = (sUploadedOnly, [Eff.parseFile reader "data.csv",
            Eff.error ("❌ Error reading file: " ++ "bad file")],
           some (PyError.nameError "df"))) :=
  ⟨C6_upload_boundary.1 inpTxt sUploadedOnly fTxt rfl (by decide) (by decide),
   C6_upload_boundary.2 inpCsvBad sUploadedOnly fCsvBad "bad file" rfl rfl
     (Or.inl (by decide))⟩

/-- C7: min-max normalization is exactly idempotent on every series with at
least two distinct present values: after one pass the minimum of the present
values is 0 and their maximum is 1, so a second pass subtracts zero and
divides by one. The model computes in exact rational arithmetic, so the
floating-point tolerance of the claim is not needed. -/
theorem C7_normalize_idempotent (xs : List Cell) (a b : ℚ)
    (ha : a ∈ seriesVals xs) (hb : b ∈ seriesVals xs) (hab : a ≠ b) :
    normalizeSeries (normalizeSeries xs) = normalizeSeries xs := by
  obtain ⟨v, vs, hvs⟩ : ∃ v vs, seriesVals xs = v :: vs := by
    cases h : seriesVals xs with
    | nil => rw [h] at ha; cases ha
    | cons v vs => exact ⟨v, vs, rfl⟩
  have hlt : seriesMin xs < seriesMax xs := by
    rcases Ne.lt_or_lt hab with h | h
    · exact lt_of_le_of_lt (seriesMin_le xs a ha) (lt_of_lt_of_le h (seriesMax_ge xs b hb))
    · exact lt_of_le_of_lt (seriesMin_le xs b hb) (lt_of_lt_of_le h (seriesMax_ge xs a ha))
  have hdpos : 0 < seriesMax xs - seriesMin xs := sub_pos.mpr hlt
  have hdne : seriesMax xs - seriesMin xs ≠ 0 := ne_of_gt hdpos
  have hmono : ∀ x y : ℚ, x ≤ y →
      (x - seriesMin xs) / (seriesMax xs - seriesMin xs)
        ≤ (y - seriesMin xs) / (seriesMax xs - seriesMin xs) := by
    intro x y hxy
    exact (div_le_div_iff_of_pos_right hdpos).mpr (sub_le_sub_right hxy _)
  have hmin2 : seriesMin (normalizeSeries xs) = 0 := by
    rw [show normalizeSeries xs
          = mapVals (fun q => (q - seriesMin xs) / (seriesMax xs - seriesMin xs)) xs
        from rfl,
      seriesMin_mapVals _ hmono xs v vs hvs]
    simp
  have hmax2 : seriesMax (normalizeSeries xs) = 1 := by
    rw [show normalizeSeries xs
          = mapVals (fun q => (q - seriesMin xs) / (seriesMax xs - seriesMin xs)) xs
        from rfl,
      seriesMax_mapVals _ hmono xs v vs hvs]
    exact div_self hdne
  calc normalizeSeries (normalizeSeries xs)
      = mapVals (fun q => (q - seriesMin (normalizeSeries xs)) /
          (seriesMax (normalizeSeries xs) - seriesMin (normalizeSeries xs)))
          (normalizeSeries xs) := rfl
    _ = mapVals (fun q => (q - 0) / (1 - 0)) (normalizeSeries xs) := by
          rw [hmin2, hmax2]
    _ = normalizeSeries xs := mapVals_id _ (fun q => by norm_num) _

/-- C7 witness: normalizing the column `[0, 5, 10]` twice equals normalizing
it once. -/
theorem C7_normalize_idempotent_witness :
    normalizeSeries (normalizeSeries [Cell.val 0, Cell.val 5, Cell.val 10])
      = normalizeSeries [Cell.val 0, Cell.val 5, Cell.val 10] :=
  C7_normalize_idempotent [Cell.val 0, Cell.val 5, Cell.val 10] 0 5
    (by decide) (by decide) (by decide)

/-- C8: the normalize operation of lines 157-163 sends the cell holding value
`q` at any position to `(q - min) / (max - min)`, with `min` and `max`
computed over the values of the series itself at the time of the action; on
the concrete column `[0, 5, 10]` it yields `[0, 1/2, 1]`. -/
theorem C8_normalize_pointwise :
    (∀ (xs : List Cell) (i : Nat) (q : ℚ),
        xs[i]? = some (Cell.val q) →
        (normalizeSeries xs)[i]?
          = some (Cell.val ((q - seriesMin xs) / (seriesMax xs - seriesMin xs)))) ∧
    normalizeSeries [Cell.val 0, Cell.val 5, Cell.val 10]
      = [Cell.val 0, Cell.val (1/2), Cell.val 1] := by
  constructor
  · intro xs i q h
    simp only [normalizeSeries, mapVals, List.getElem?_map, h]
    rfl
  · have hmin : seriesMin [Cell.val 0, Cell.val 5, Cell.val 10] = 0 := by decide
    have hmax : seriesMax [Cell.val 0, Cell.val 5, Cell.val 10] = 10 := by decide
    simp only [normalizeSeries, hmin, hmax, mapVals, List.map]
    norm_num

/-- C8 witness: position 1 of the normalized `[0, 5, 10]` holds
`(5 - min) / (max - min)`. -/
theorem C8_normalize_pointwise_witness :
    (normalizeSeries [Cell.val 0, Cell.val 5, Cell.val 10])[1]?
      = some (Cell.val ((5 - seriesMin [Cell.val 0, Cell.val 5, Cell.val 10])
          / (seriesMax [Cell.val 0, Cell.val 5, Cell.val 10]
              - seriesMin [Cell.val 0, Cell.val 5, Cell.val 10]))) :=
  C8_normalize_pointwise.1 [Cell.val 0, Cell.val 5, Cell.val 10] 1 5 (by decide)

/-- C9: drop-missing-values leaves a dataset without missing values unchanged,
and applying it twice is the same as applying it once. -/
theorem C9_dropna_idempotent :
    (∀ d : DataFrame, (∀ r ∈ d.rows, ∀ c ∈ r, c ≠ Cell.missing) → d.dropna = d) ∧
    (∀ d : DataFrame, d.dropna.dropna = d.dropna) := by
  constructor
  · intro d h
    have hfil : d.rows.filter rowComplete = d.rows := by
      apply List.filter_eq_self.mpr
      intro r hr
      simp only [rowComplete, List.all_eq_true]
      intro c hc
      exact bne_iff_ne.mpr (h r hr c hc)
    show ({ d with rows := d.rows.filter rowComplete } : DataFrame) = d
    rw [hfil]
  · intro d
    have hfil : (d.rows.filter rowComplete).filter rowComplete
        = d.rows.filter rowComplete :=
      List.filter_eq_self.mpr fun a ha => (List.mem_filter.mp ha).2
    show ({ d with rows := (d.rows.filter rowComplete).filter rowComplete } : DataFrame)
      = { d with rows := d.rows.filter rowComplete }
    rw [hfil]

/-- C9 witness: a one-row complete dataset is unchanged by drop-missing. -/
theorem C9_dropna_idempotent_witness :
    DataFrame.dropna { header := ["x"], rows := [[Cell.val 1]] }
      = { header := ["x"], rows := [[Cell.val 1]] } :=
  C9_dropna_idempotent.1 { header := ["x"], rows := [[Cell.val 1]] } (by decide)

/-- C10: a second `remember` under the same key replaces the first
association: after `remember k [x]` then `remember k [y]`, recalling `k`
yields `[y]`, not `[x, y]`. -/
theorem C10_remember_replaces (m : Memory) (k x y : String) :
    recallValue k (remember k [y] (remember k [x] m)) = some [y] := by
  unfold recallValue remember
  rw [List.find?_cons_of_pos _ (by simp)]
  rfl

end App
